import Mathlib

/-!
Verification development for the file-to-link relay bot
(src/main.py, src/database.py).

The Python source is shallowly embedded: pure computations become Lean
functions; the in-process fallback map `file_storage` becomes an
association list; the MongoDB collection becomes a list of documents and
its queries become list searches; fallible external effects (database
raising, the HTTP upload, the platform download) become explicit oracle
inputs, `Option`-valued exactly where the Python returns `None` on
failure or swallows an exception.
-/

namespace FileToLink

/-! ## Data model -/

/-- One entry of the in-process fallback map `file_storage`
(the `file_data` dict built in `store_file_info_pro`, src/main.py
lines 188..201; fields not read by any embedded operation are omitted). -/
structure FileRecord where
  unique_id : Nat
  telegram_file_id : String
  file_name : String
  file_size : Nat
  file_type : String
  hash : String
  created_at : Int
  deriving Repr, DecidableEq

/-- The in-process fallback map `file_storage` (src/main.py line 175),
a dict keyed by `unique_id`, embedded as an association list. -/
abbrev Storage := List (Nat × FileRecord)

/-- Dict lookup `file_storage[file_id]` / membership `file_id in file_storage`. -/
def lookupStorage (s : Storage) (file_id : Nat) : Option FileRecord :=
  (s.find? (fun p => p.1 == file_id)).map Prod.snd

/-- A document of the MongoDB `files` collection, with the fields the
embedded queries consult (`unique_id`, `hash`, `expires_at`; the rest of
the stored `file_data` is irrelevant to the lookups). `expires_at` is set
by `FileDatabase.store_file` to creation time + 30 days. -/
structure DbRecord where
  unique_id : Nat
  hash : String
  expires_at : Int
  deriving Repr, DecidableEq

/-! ## src/database.py -/

/-- `FileDatabase.get_file` (src/database.py lines 49..60): `find_one`
on the collection with filter `unique_id = uid`, `hash = hash_value`,
`expires_at > now`. `find_one` is embedded as the first matching
document of the collection list; `now` stands for `datetime.utcnow()`. -/
def FileDatabase.get_file (coll : List DbRecord) (now : Int)
    (uid : Nat) (hash_value : String) : Option DbRecord :=
  coll.find? (fun d =>
    d.unique_id == uid && d.hash == hash_value && decide (now < d.expires_at))

/-- `FileDatabase.cleanup_expired_files` (src/database.py lines 73..83):
`delete_many` of documents with `expires_at < now`; returns the deleted
count. Embedded as (deleted count, remaining collection). -/
def FileDatabase.cleanup_expired_files (coll : List DbRecord) (now : Int) :
    Nat × List DbRecord :=
  ((coll.filter (fun d => decide (d.expires_at < now))).length,
   coll.filter (fun d => !(decide (d.expires_at < now))))

/-! ## src/main.py: upload timeout and response parsing -/

/-- The per-attempt upload timeout of `upload_to_gofile` (src/main.py
line 93): `min(1800, max(300, file_size // (1024 * 1024) * 15))`.
Python `//` is floor division, which is `Nat` division here. -/
def upload_timeout (file_size : Nat) : Nat :=
  min 1800 (max 300 (file_size / (1024 * 1024) * 15))

/-- The spec's description of the same computation:
`clamp(sizeBytes / 1MiB * 15s, lower=300s, upper=1800s)`. -/
def clampSpecTimeout (sizeBytes : Nat) : Nat :=
  max 300 (min 1800 (sizeBytes / (1024 * 1024) * 15))

/-- The parsed JSON body of a GoFile upload response, as consulted by
`upload_to_gofile` (src/main.py lines 131..145): `result.get("status")`
(absent key gives `none`) and `result.get("data", {}).get("downloadPage")`. -/
structure GoJson where
  status : Option String
  downloadPage : Option String
  deriving Repr, DecidableEq

/-- An HTTP response from the upload POST: status code, body text, and
the result of JSON-parsing the body (`none` when `response.json()`
raises `ValueError`). -/
structure HttpResponse where
  statusCode : Nat
  body : String
  json : Option GoJson
  deriving Repr, DecidableEq

/-- Outcome of the network interaction of `upload_to_gofile`: either a
response was obtained, or one of the exception branches of src/main.py
lines 150..163 fired (`requests.exceptions.Timeout`,
`requests.exceptions.ConnectionError`, `requests.exceptions.RequestException`,
or any other unexpected exception). -/
inductive NetResult where
  | ok (resp : HttpResponse)
  | timeoutErr
  | connectionErr
  | requestErr
  | unexpectedErr
  deriving Repr, DecidableEq

/-- The response-parsing section of `upload_to_gofile` (src/main.py
lines 119..148), checks in source order: non-200 status; empty stripped
body (`if not response_text`); JSON parse failure; `status != "ok"`;
missing or falsy `downloadPage` (`if not download_page` — the empty
string is falsy). Every failing check returns `None`; only the fully
well-formed response returns the download page. -/
def parse_upload_response (resp : HttpResponse) : Option String :=
  if resp.statusCode ≠ 200 then none
  else if resp.body.trim = "" then none
  else match resp.json with
    | none => none
    | some result =>
      if result.status ≠ some "ok" then none
      else match result.downloadPage with
        | none => none
        | some dp => if dp = "" then none else some dp

/-- Observable result of one `upload_to_gofile` call: the returned link
(or `None`), whether the temporary file still exists afterwards, whether
an exception escaped the function, and whether removal was attempted. -/
structure UploadResult where
  result : Option String
  fileExistsAfter : Bool
  raised : Bool
  removeAttempted : Bool
  deriving Repr, DecidableEq

/-- The `finally` block of `upload_to_gofile` (src/main.py lines
164..171): if the file exists it is removed; a failure of `os.remove`
(`removeFails`) is caught and logged, never re-raised. -/
def gofile_cleanup (fileExists removeFails : Bool) (result : Option String) :
    UploadResult :=
  if fileExists then
    if removeFails then
      { result := result, fileExistsAfter := true, raised := false,
        removeAttempted := true }
    else
      { result := result, fileExistsAfter := false, raised := false,
        removeAttempted := true }
  else
    { result := result, fileExistsAfter := false, raised := false,
      removeAttempted := false }

/-- `upload_to_gofile` (src/main.py lines 66..171), after the
best-effort server selection: perform the single POST (its outcome is
the `net` input), parse the response on the success branch, map every
exception branch to `None`, then run the `finally` cleanup. There is no
retry: the function issues exactly one POST per call. -/
def upload_to_gofile (net : NetResult) (fileExists removeFails : Bool) :
    UploadResult :=
  let result : Option String :=
    match net with
    | .ok resp => parse_upload_response resp
    | .timeoutErr => none
    | .connectionErr => none
    | .requestErr => none
    | .unexpectedErr => none
  gofile_cleanup fileExists removeFails result

/-! ## src/main.py: storage, lookup, sweep -/

/-- `store_file_info_pro` (src/main.py lines 178..216), storage step:
the record is written to the database via `db.store_file`; when that
raises (`dbRaises` — `get_database()` failing to connect), the record
is instead placed into the in-process map `file_storage`
(`file_storage[unique_id] = file_data`, an overwriting dict insert,
embedded as a cons that shadows older bindings). The function then
returns `(unique_id, file_hash)` either way. -/
def store_file_info_pro (dbRaises : Bool) (rec : FileRecord) (s : Storage) :
    Storage :=
  if dbRaises then (rec.unique_id, rec) :: s else s

/-- `get_file_from_storage` (src/main.py lines 363..380): reads only
the in-process map `file_storage`; unknown id gives `None`; a stored
record whose `hash` differs from the caller-supplied hash gives `None`
(after a log line); otherwise the record. No expiry check is made. -/
def get_file_from_storage (s : Storage) (file_id : Nat)
    (provided_hash : String) : Option FileRecord :=
  match lookupStorage s file_id with
  | none => none
  | some file_info =>
    if file_info.hash ≠ provided_hash then none
    else some file_info

/-- Expiry instant of an in-process fallback record. Modelled from the
spec: fallback records expire 24 hours after creation (the map stores no
`expires_at` field; 86400 seconds is the threshold `cleanup_command`
sweeps with, src/main.py line 947). -/
def fallbackExpiresAt (r : FileRecord) : Int :=
  r.created_at + 86400

/-- The sweep of `cleanup_command` (src/main.py lines 938..956): delete
every `file_storage` entry with `current_time - created_at > 86400`;
report (removed count, surviving map). -/
def cleanup_sweep (current_time : Int) (s : Storage) : Nat × Storage :=
  ((s.filter (fun p => decide (current_time - p.2.created_at > 86400))).length,
   s.filter (fun p => !(decide (current_time - p.2.created_at > 86400))))

/-- The user-visible reply of `file_info_command` (src/main.py lines
900..935) and of the `info_` callback branch (lines 751..782): when the
lookup succeeds, a message rendering the id, the record's fields, and
the supplied hash; when it fails, the constant text
"❌ **File not found or invalid hash!**", which carries no information
about which check failed. -/
inductive InfoReply where
  | found (file_id : Nat) (rec : FileRecord) (file_hash : String)
  | notFound
  deriving Repr, DecidableEq

/-- `file_info_command` (src/main.py lines 900..935), the part after
argument parsing: look the pair up via `get_file_from_storage` and
reply accordingly. -/
def file_info_command (s : Storage) (file_id : Nat) (file_hash : String) :
    InfoReply :=
  match get_file_from_storage s file_id file_hash with
  | some file_info => .found file_id file_info file_hash
  | none => .notFound

/-! ## src/main.py: the orchestrator `handle_media` and the fallback -/

/-- The link set returned by `generate_professional_links` (src/main.py
lines 243..273, the later definition, which shadows the earlier one). -/
structure ProLinks where
  stream : String
  download : String
  alt_stream : String
  alt_download : String
  hash : String
  id : Nat
  deriving Repr, DecidableEq

/-- Terminal outcome of one `handle_media` run. -/
inductive Outcome where
  | failedTooLarge
  | instantLinks (links : ProLinks)
  | hostedLink (url : String)
  | failedUpload
  | failedError
  deriving Repr, DecidableEq

/-- Observable result of one `handle_media` run: the outcome plus how
many times each collaborator was invoked (`store_file_info_pro`,
`generate_professional_links`, `handle_gofile_upload`, and within it
`upload_to_gofile`). -/
structure MediaResult where
  outcome : Outcome
  storeCalls : Nat
  linkGenCalls : Nat
  gofileCalls : Nat
  uploadCalls : Nat
  deriving Repr, DecidableEq

/-- Oracle inputs standing for the fallible calls a `handle_media` run
makes: the result of `store_file_info_pro` (`none` embeds its
`(None, None)` exception return), of `generate_professional_links`
(`none` embeds its exception return), of the platform download in
`handle_gofile_upload` (`none` embeds `message.download` raising), and
of `upload_to_gofile` (`none` embeds every failure, src/main.py
line 849). -/
structure Oracles where
  storeResult : Option (Nat × String)
  linkResult : Option ProLinks
  downloadResult : Option String
  uploadResult : Option String
  deriving Repr, DecidableEq

/-- `handle_gofile_upload` (src/main.py lines 786..882): download the
file from the platform (a raise lands in the outer `except`, an error
message — no upload attempt); then call `upload_to_gofile` exactly
once; a link gives the success edit, `None` gives the failure edit.
No further strategy is attempted in either case. -/
def handle_gofile_upload (o : Oracles) (storeCalls linkGenCalls : Nat) :
    MediaResult :=
  match o.downloadResult with
  | none =>
    { outcome := .failedError, storeCalls := storeCalls,
      linkGenCalls := linkGenCalls, gofileCalls := 1, uploadCalls := 0 }
  | some _ =>
    match o.uploadResult with
    | some url =>
      { outcome := .hostedLink url, storeCalls := storeCalls,
        linkGenCalls := linkGenCalls, gofileCalls := 1, uploadCalls := 1 }
    | none =>
      { outcome := .failedUpload, storeCalls := storeCalls,
        linkGenCalls := linkGenCalls, gofileCalls := 1, uploadCalls := 1 }

/-- `handle_media` (src/main.py lines 586..699): reject sizes above
`2 * 1024 * 1024 * 1024` bytes before calling anything; otherwise call
`store_file_info_pro`; on a truthy `(unique_id, file_hash)` pair
(Python truthiness: `0` and `""` are falsy) call
`generate_professional_links`; a truthy link set is the instant-links
success; every other path falls through to the single GoFile fallback. -/
def handle_media (size : Nat) (o : Oracles) : MediaResult :=
  if size > 2 * 1024 * 1024 * 1024 then
    { outcome := .failedTooLarge, storeCalls := 0, linkGenCalls := 0,
      gofileCalls := 0, uploadCalls := 0 }
  else
    match o.storeResult with
    | some (uid, h) =>
      if uid ≠ 0 ∧ h ≠ "" then
        match o.linkResult with
        | some links =>
          { outcome := .instantLinks links, storeCalls := 1,
            linkGenCalls := 1, gofileCalls := 0, uploadCalls := 0 }
        | none => handle_gofile_upload o 1 1
      else handle_gofile_upload o 1 0
    | none => handle_gofile_upload o 1 0

/-! ## src/main.py: the GoFile-backup callback -/

/-- Reply of the `gf_` branch of `handle_callback` (src/main.py lines
706..729). -/
inductive CallbackResult where
  | infoNotFound
  | originalNotFound
  | unprocessable
  | uploadStarted
  deriving Repr, DecidableEq

/-- The `gf_` branch of `handle_callback` (src/main.py lines 706..729):
first require `unique_id in file_storage` (mere key presence — the
stored record's hash and age are not consulted); then require the
original message (`reply_to_message`, the outer `Option`) and a
recognizable file in it (`get_file_info`, the inner `Option`); only
then enter `handle_gofile_upload` with the original message's file. -/
def handle_callback_gf (s : Storage) (uid : Nat)
    (replyMsg : Option (Option FileRecord)) : CallbackResult :=
  if (lookupStorage s uid).isNone then .infoNotFound
  else
    match replyMsg with
    | none => .originalNotFound
    | some none => .unprocessable
    | some (some _) => .uploadStarted

/-! ## Theorems -/

/-- C5: for every declared file size the per-attempt upload timeout is
`clamp(sizeBytes / 1 MiB * 15 s, lower 300 s, upper 1800 s)` (with the
source's floor division), and in particular the timeout is 300 s at
1 MiB, 1500 s at 100 MiB, and 1800 s at 1800 MiB. -/
theorem C5_timeout_clamp :
    (∀ s : Nat, upload_timeout s = clampSpecTimeout s) ∧
    upload_timeout (1 * 1024 * 1024) = 300 ∧
    upload_timeout (100 * 1024 * 1024) = 1500 ∧
    upload_timeout (1800 * 1024 * 1024) = 1800 := by
  refine ⟨fun s => ?_, by norm_num [upload_timeout],
    by norm_num [upload_timeout], by norm_num [upload_timeout]⟩
  unfold upload_timeout clampSpecTimeout
  omega

/-- A concrete link set, used to instantiate counterexamples. -/
def demoLinks : ProLinks :=
  { stream := "s", download := "d", alt_stream := "as",
    alt_download := "ad", hash := "aGFzaA", id := 123456 }

/-- A concrete oracle assignment in which every fallible call succeeds
up to the link set, used to instantiate counterexamples. -/
def demoOracles : Oracles :=
  { storeResult := some (123456, "aGFzaA"), linkResult := some demoLinks,
    downloadResult := none, uploadResult := none }

/-- C1 counterexample: a file of 2000000001 bytes exceeds the claimed
2×10^9-byte ceiling, yet `handle_media` does not reach Failed(TooLarge)
and does invoke the identifier allocation and the link generation (the
source's ceiling is `2 * 1024 * 1024 * 1024 = 2147483648` bytes, not
2×10^9). -/
theorem C1_ceiling_cex :
    2000000001 > 2000000000 ∧
    (handle_media 2000000001 demoOracles).outcome ≠ Outcome.failedTooLarge ∧
    (handle_media 2000000001 demoOracles).storeCalls = 1 ∧
    (handle_media 2000000001 demoOracles).linkGenCalls = 1 := by
  decide

/-- C1 (amended): for every inbound file event whose size exceeds the
source's operational ceiling of 2 GiB (`2 * 1024 * 1024 * 1024 =
2147483648` bytes), `handle_media` reaches Failed(TooLarge) and rejects
the event with zero invocations of the storage step, the link
generator, the GoFile fallback, and the upload client. -/
theorem C1_ceiling_amended (size : Nat) (o : Oracles)
    (h : size > 2 * 1024 * 1024 * 1024) :
    handle_media size o =
      { outcome := .failedTooLarge, storeCalls := 0, linkGenCalls := 0,
        gofileCalls := 0, uploadCalls := 0 } := by
  simp [handle_media, h]

/-- Witness for C1 (amended) at size 2147483649. -/
theorem C1_ceiling_amended_witness :
    handle_media 2147483649
      { storeResult := none, linkResult := none,
        downloadResult := none, uploadResult := none } =
      { outcome := .failedTooLarge, storeCalls := 0, linkGenCalls := 0,
        gofileCalls := 0, uploadCalls := 0 } :=
  C1_ceiling_amended 2147483649
    { storeResult := none, linkResult := none,
      downloadResult := none, uploadResult := none } (by norm_num)

/-- C2 counterexample: in the in-process fallback map, a record whose
24-hour expiry has long passed (created at 0, queried at a current time
of 100000 > 86400) is still returned by the lookup with a matching id
and hash — `get_file_from_storage` consults no clock at all, so the
claimed `now < expiresAt` conjunct is absent for the fallback store. -/
theorem C2_expired_fallback_cex :
    fallbackExpiresAt
      { unique_id := 5, telegram_file_id := "t", file_name := "f",
        file_size := 10, file_type := "Document", hash := "abc",
        created_at := 0 } < 100000 ∧
    get_file_from_storage
      [(5, { unique_id := 5, telegram_file_id := "t", file_name := "f",
             file_size := 10, file_type := "Document", hash := "abc",
             created_at := 0 })] 5 "abc" =
      some { unique_id := 5, telegram_file_id := "t", file_name := "f",
             file_size := 10, file_type := "Document", hash := "abc",
             created_at := 0 } := by
  decide

/-- C2 (amended): the durable store's lookup returns Some exactly when
some stored document matches the uniqueId, its hash equals the supplied
hash, and the current time is strictly before its expiry; the
in-process fallback lookup checks only id presence and hash equality
and ignores expiry entirely (expired fallback records stay retrievable
until the sweep removes them). -/
theorem C2_lookup_amended :
    (∀ (coll : List DbRecord) (now : Int) (uid : Nat) (hv : String),
      (FileDatabase.get_file coll now uid hv).isSome = true ↔
        ∃ d ∈ coll, d.unique_id = uid ∧ d.hash = hv ∧ now < d.expires_at) ∧
    (∀ (coll : List DbRecord) (now : Int) (uid : Nat) (hv : String)
        (d : DbRecord),
      FileDatabase.get_file coll now uid hv = some d →
        d ∈ coll ∧ d.unique_id = uid ∧ d.hash = hv ∧ now < d.expires_at) ∧
    (∀ (s : Storage) (fid : Nat) (ph : String) (r : FileRecord),
      get_file_from_storage s fid ph = some r ↔
        lookupStorage s fid = some r ∧ r.hash = ph) := by
  refine ⟨fun coll now uid hv => ?_, fun coll now uid hv d hd => ?_,
    fun s fid ph r => ?_⟩
  · unfold FileDatabase.get_file
    rw [List.find?_isSome]
    simp [and_assoc]
  · have hm := List.mem_of_find?_eq_some hd
    have hp := List.find?_some hd
    simp only [Bool.and_eq_true, beq_iff_eq, decide_eq_true_eq] at hp
    exact ⟨hm, hp.1.1, hp.1.2, hp.2⟩
  · unfold get_file_from_storage
    cases hl : lookupStorage s fid with
    | none => simp
    | some fi =>
      by_cases hh : fi.hash = ph
      · simp only [ne_eq, hh, not_true_eq_false, if_false,
          Option.some.injEq]
        constructor
        · rintro rfl
          exact ⟨rfl, hh⟩
        · rintro ⟨h1, _⟩
          exact h1
      · simp only [ne_eq, hh, not_false_eq_true, if_true,
          Option.some.injEq]
        constructor
        · intro h
          exact Option.noConfusion h
        · rintro ⟨rfl, h2⟩
          exact absurd h2 hh

/-- C3: a lookup with a wrong hash for a stored id and a lookup for an
id that was never stored are observationally identical: both return
`None` from `get_file_from_storage`, and the `/info` reply (also used
by the info callback) is the same constant not-found message in both
runs, so the caller cannot distinguish a hash mismatch from an unknown
id. -/
theorem C3_mismatch_indistinguishable (s₁ s₂ : Storage) (id₁ id₂ : Nat)
    (h₁ h₂ : String) (r₁ : FileRecord)
    (hs : lookupStorage s₁ id₁ = some r₁) (hm : r₁.hash ≠ h₁)
    (hn : lookupStorage s₂ id₂ = none) :
    get_file_from_storage s₁ id₁ h₁ = get_file_from_storage s₂ id₂ h₂ ∧
    get_file_from_storage s₁ id₁ h₁ = none ∧
    file_info_command s₁ id₁ h₁ = file_info_command s₂ id₂ h₂ ∧
    file_info_command s₁ id₁ h₁ = InfoReply.notFound := by
  have e1 : get_file_from_storage s₁ id₁ h₁ = none := by
    simp [get_file_from_storage, hs, hm]
  have e2 : get_file_from_storage s₂ id₂ h₂ = none := by
    simp [get_file_from_storage, hn]
  refine ⟨by rw [e1, e2], e1, ?_, ?_⟩ <;>
    simp [file_info_command, e1, e2]

/-- Witness for C3: a store holding id 1 with hash "abc" queried with
the wrong hash "zzz", against an empty store queried for id 2. -/
theorem C3_mismatch_indistinguishable_witness :
    get_file_from_storage
      [(1, { unique_id := 1, telegram_file_id := "t", file_name := "f",
             file_size := 10, file_type := "Document", hash := "abc",
             created_at := 0 })] 1 "zzz" =
      get_file_from_storage [] 2 "abc" ∧
    get_file_from_storage
      [(1, { unique_id := 1, telegram_file_id := "t", file_name := "f",
             file_size := 10, file_type := "Document", hash := "abc",
             created_at := 0 })] 1 "zzz" = none ∧
    file_info_command
      [(1, { unique_id := 1, telegram_file_id := "t", file_name := "f",
             file_size := 10, file_type := "Document", hash := "abc",
             created_at := 0 })] 1 "zzz" =
      file_info_command [] 2 "abc" ∧
    file_info_command
      [(1, { unique_id := 1, telegram_file_id := "t", file_name := "f",
             file_size := 10, file_type := "Document", hash := "abc",
             created_at := 0 })] 1 "zzz" = InfoReply.notFound :=
  C3_mismatch_indistinguishable
    [(1, { unique_id := 1, telegram_file_id := "t", file_name := "f",
           file_size := 10, file_type := "Document", hash := "abc",
           created_at := 0 })] [] 1 2 "zzz" "abc"
    { unique_id := 1, telegram_file_id := "t", file_name := "f",
      file_size := 10, file_type := "Document", hash := "abc",
      created_at := 0 }
    (by decide) (by decide) (by decide)

/-- Reduction of `handle_media` when the size check passes and the
storage step returned nothing. -/
theorem handle_media_store_none (size : Nat) (o : Oracles)
    (hno : ¬ size > 2 * 1024 * 1024 * 1024) (hst : o.storeResult = none) :
    handle_media size o = handle_gofile_upload o 1 0 := by
  unfold handle_media
  rw [if_neg hno, hst]

/-- Reduction of `handle_media` when the size check passes and the
storage step returned a pair. -/
theorem handle_media_store_some (size : Nat) (o : Oracles) (uid : Nat)
    (h : String) (hno : ¬ size > 2 * 1024 * 1024 * 1024)
    (hst : o.storeResult = some (uid, h)) :
    handle_media size o =
      if uid ≠ 0 ∧ h ≠ "" then
        match o.linkResult with
        | some links =>
          { outcome := Outcome.instantLinks links, storeCalls := 1,
            linkGenCalls := 1, gofileCalls := 0, uploadCalls := 0 }
        | none => handle_gofile_upload o 1 1
      else handle_gofile_upload o 1 0 := by
  unfold handle_media
  rw [if_neg hno, hst]

/-- Behaviour of one `handle_gofile_upload` entry: the GoFile path runs
once, the upload client is called at most once (exactly once when the
platform download succeeded), a failed upload ends in Failed, and no
path re-enters the instant-link strategy. -/
theorem handle_gofile_upload_spec (o : Oracles) (sc lc : Nat) :
    (handle_gofile_upload o sc lc).gofileCalls = 1 ∧
    (handle_gofile_upload o sc lc).uploadCalls ≤ 1 ∧
    (o.downloadResult = none →
      (handle_gofile_upload o sc lc).outcome = Outcome.failedError) ∧
    (o.downloadResult.isSome = true → o.uploadResult = none →
      (handle_gofile_upload o sc lc).uploadCalls = 1 ∧
      (handle_gofile_upload o sc lc).outcome = Outcome.failedUpload) ∧
    (∀ l, (handle_gofile_upload o sc lc).outcome ≠ Outcome.instantLinks l) := by
  rcases o with ⟨st, lk, dl, up⟩
  cases dl <;> cases up <;> simp [handle_gofile_upload]

/-- C4: whenever the instant-link path fails — the identifier/hash
allocation returns nothing or the link construction returns nothing —
and the size was within the ceiling, `handle_media` falls back to the
GoFile TransferPath exactly once, calls the upload client at most
once (exactly once when the platform download succeeded), and a
TransferPath failure ends in a Failed outcome, never in another
strategy and never back in instant links. -/
theorem C4_fallback_one_hop (size : Nat) (o : Oracles)
    (hsz : size ≤ 2 * 1024 * 1024 * 1024)
    (hfail : o.storeResult = none ∨ o.linkResult = none) :
    (handle_media size o).gofileCalls = 1 ∧
    (handle_media size o).uploadCalls ≤ 1 ∧
    (o.downloadResult = none →
      (handle_media size o).outcome = Outcome.failedError) ∧
    (o.downloadResult.isSome = true → o.uploadResult = none →
      (handle_media size o).uploadCalls = 1 ∧
      (handle_media size o).outcome = Outcome.failedUpload) ∧
    (∀ l, (handle_media size o).outcome ≠ Outcome.instantLinks l) := by
  have hno : ¬ size > 2 * 1024 * 1024 * 1024 := by omega
  have hred : handle_media size o = handle_gofile_upload o 1 1 ∨
      handle_media size o = handle_gofile_upload o 1 0 := by
    rcases hst : o.storeResult with _ | ⟨uid, h⟩
    · exact Or.inr (handle_media_store_none size o hno hst)
    · rcases hfail with hfa | hfa
      · rw [hst] at hfa
        exact Option.noConfusion hfa
      · rw [handle_media_store_some size o uid h hno hst, hfa]
        by_cases htr : uid ≠ 0 ∧ h ≠ ""
        · rw [if_pos htr]
          exact Or.inl rfl
        · rw [if_neg htr]
          exact Or.inr rfl
  rcases hred with hred | hred <;> rw [hred] <;>
    exact handle_gofile_upload_spec o 1 _

/-- Witness for C4: size 100, allocation fails, download succeeds,
upload fails — the GoFile path runs once and the run ends Failed. -/
theorem C4_fallback_one_hop_witness :
    (handle_media 100
      { storeResult := none, linkResult := none,
        downloadResult := some "p", uploadResult := none }).gofileCalls = 1 ∧
    (handle_media 100
      { storeResult := none, linkResult := none,
        downloadResult := some "p", uploadResult := none }).uploadCalls = 1 ∧
    (handle_media 100
      { storeResult := none, linkResult := none,
        downloadResult := some "p", uploadResult := none }).outcome =
      Outcome.failedUpload := by
  have h := C4_fallback_one_hop 100
    { storeResult := none, linkResult := none,
      downloadResult := some "p", uploadResult := none }
    (by norm_num) (Or.inl rfl)
  have h4 := h.2.2.2.1 rfl rfl
  exact ⟨h.1, h4.1, h4.2⟩

/-- C6: on every exit path of `upload_to_gofile` — a parsed response of
any shape, timeout, connection error, request error, or unexpected
failure — no exception escapes the function, removal of the temporary
file is attempted exactly when the file exists, and the file is gone
afterwards unless the removal itself failed (in which case the failure
is still swallowed). -/
theorem C6_temp_file_cleanup (net : NetResult)
    (fileExists removeFails : Bool) :
    (upload_to_gofile net fileExists removeFails).raised = false ∧
    (upload_to_gofile net fileExists removeFails).removeAttempted
      = fileExists ∧
    (upload_to_gofile net fileExists removeFails).fileExistsAfter
      = (fileExists && removeFails) := by
  cases fileExists <;> cases removeFails <;>
    simp [upload_to_gofile, gofile_cleanup]

/-- C7: `upload_to_gofile` yields a URL exactly for a fully well-formed
success response — HTTP 200, non-empty stripped body, parseable JSON,
status field `some "ok"`, and a non-empty `downloadPage` — and every
response failing one of those checks, as well as every exception
branch, yields `None`; a single response decides a call, with no
internal retry. -/
theorem C7_response_parsing (resp : HttpResponse) :
    (∀ url, parse_upload_response resp = some url ↔
      resp.statusCode = 200 ∧ resp.body.trim ≠ "" ∧
      ∃ j, resp.json = some j ∧ j.status = some "ok" ∧
        j.downloadPage = some url ∧ url ≠ "") ∧
    (resp.statusCode ≠ 200 → parse_upload_response resp = none) ∧
    (resp.body.trim = "" → parse_upload_response resp = none) ∧
    (resp.json = none → parse_upload_response resp = none) ∧
    (∀ j, resp.json = some j → j.status ≠ some "ok" →
      parse_upload_response resp = none) ∧
    (∀ j, resp.json = some j → j.downloadPage = none →
      parse_upload_response resp = none) ∧
    (∀ fe rf, (upload_to_gofile (NetResult.ok resp) fe rf).result =
      parse_upload_response resp) ∧
    (∀ fe rf,
      (upload_to_gofile NetResult.timeoutErr fe rf).result = none ∧
      (upload_to_gofile NetResult.connectionErr fe rf).result = none ∧
      (upload_to_gofile NetResult.requestErr fe rf).result = none ∧
      (upload_to_gofile NetResult.unexpectedErr fe rf).result = none) := by
  refine ⟨fun url => ?_, fun h => ?_, fun h => ?_, fun h => ?_,
    fun j hj hs => ?_, fun j hj hd => ?_, fun fe rf => ?_, fun fe rf => ?_⟩
  · unfold parse_upload_response
    by_cases h200 : resp.statusCode = 200
    · by_cases hbody : resp.body.trim = ""
      · simp [h200, hbody]
      · cases hj : resp.json with
        | none => simp [h200, hbody, hj]
        | some j =>
          by_cases hstat : j.status = some "ok"
          · cases hdp : j.downloadPage with
            | none => simp [h200, hbody, hj, hstat, hdp]
            | some dp =>
              by_cases hdpe : dp = ""
              · subst hdpe
                simp [h200, hbody, hj, hstat, hdp]
                intro h
                exact h.symm
              · simp [h200, hbody, hj, hstat, hdp, hdpe]
                rintro rfl
                exact hdpe
          · simp [h200, hbody, hj, hstat]
    · simp [h200]
  · simp [parse_upload_response, h]
  · unfold parse_upload_response
    by_cases h200 : resp.statusCode = 200 <;> simp [h200, h]
  · unfold parse_upload_response
    by_cases h200 : resp.statusCode = 200 <;>
      by_cases hbody : resp.body.trim = "" <;> simp [h200, hbody, h]
  · unfold parse_upload_response
    by_cases h200 : resp.statusCode = 200 <;>
      by_cases hbody : resp.body.trim = "" <;> simp [h200, hbody, hj, hs]
  · unfold parse_upload_response
    by_cases h200 : resp.statusCode = 200 <;>
      by_cases hbody : resp.body.trim = "" <;>
        by_cases hs : j.status = some "ok" <;>
          simp [h200, hbody, hj, hs, hd]
  · simp [upload_to_gofile, gofile_cleanup]
    cases fe <;> cases rf <;> simp
  · cases fe <;> cases rf <;>
      simp [upload_to_gofile, gofile_cleanup]

/-- C8 counterexample: the original message and its file are available,
no TransferRecord for id 123 is in the store (it is empty, so none is
retrievable either), and the GoFile-backup callback does not proceed to
the upload: it stops with the not-found reply. -/
theorem C8_backup_callback_cex :
    handle_callback_gf [] 123
      (some (some { unique_id := 123, telegram_file_id := "t",
                    file_name := "f", file_size := 10,
                    file_type := "Video", hash := "abc",
                    created_at := 0 })) = CallbackResult.infoNotFound ∧
    CallbackResult.infoNotFound ≠ CallbackResult.uploadStarted := by
  decide

/-- C8 (amended): the GoFile-backup callback proceeds to the
TransferPath with the original message's FileHandle exactly when the
uniqueId is still a key of the in-process fallback map and the original
message with a recognizable file is available; given presence, the
stored record's content (hash, age) is never consulted — two stores
that both contain the key give identical behaviour. -/
theorem C8_backup_callback_amended (s : Storage) (uid : Nat)
    (replyMsg : Option (Option FileRecord)) :
    (handle_callback_gf s uid replyMsg = CallbackResult.uploadStarted ↔
      (lookupStorage s uid).isSome = true ∧
      ∃ r, replyMsg = some (some r)) ∧
    (∀ s' : Storage, (lookupStorage s uid).isSome = true →
      (lookupStorage s' uid).isSome = true →
      handle_callback_gf s uid replyMsg =
        handle_callback_gf s' uid replyMsg) := by
  constructor
  · unfold handle_callback_gf
    cases hl : (lookupStorage s uid) with
    | none => simp [hl]
    | some fi =>
      rcases replyMsg with _ | ⟨_ | r⟩ <;> simp [hl]
  · intro s' hs hs'
    rcases Option.isSome_iff_exists.mp hs with ⟨v, hv⟩
    rcases Option.isSome_iff_exists.mp hs' with ⟨v', hv'⟩
    unfold handle_callback_gf
    rw [hv, hv']
    simp

/-- Removing the entries a predicate selects from a list already purged
of them removes nothing and changes nothing. -/
theorem sweep_filter_idem {α : Type} (l : List α) (p : α → Bool) :
    ((l.filter fun a => !p a).filter fun a => p a) = [] ∧
    ((l.filter fun a => !p a).filter fun a => !p a) =
      l.filter fun a => !p a := by
  constructor
  · rw [List.filter_eq_nil_iff]
    intro a ha
    rcases List.mem_filter.mp ha with ⟨_, h2⟩
    simp at h2
    simp [h2]
  · rw [List.filter_eq_self]
    intro a ha
    exact (List.mem_filter.mp ha).2

/-- C9: for a fixed current time, the fallback map's sweep
(`cleanup_command`) and the durable store's sweep
(`cleanup_expired_files`) each remove exactly the entries whose expiry
has passed and report that count, and running either sweep again on its
own output removes nothing and reports 0. -/
theorem C9_sweep_exact_idempotent :
    (∀ (now : Int) (s : Storage),
      (∀ e, e ∈ (cleanup_sweep now s).2 ↔
        e ∈ s ∧ ¬ fallbackExpiresAt e.2 < now) ∧
      (cleanup_sweep now s).1 =
        (s.filter (fun p => decide (fallbackExpiresAt p.2 < now))).length ∧
      cleanup_sweep now (cleanup_sweep now s).2 =
        (0, (cleanup_sweep now s).2)) ∧
    (∀ (now : Int) (coll : List DbRecord),
      (∀ d, d ∈ (FileDatabase.cleanup_expired_files coll now).2 ↔
        d ∈ coll ∧ ¬ d.expires_at < now) ∧
      (FileDatabase.cleanup_expired_files coll now).1 =
        (coll.filter (fun d => decide (d.expires_at < now))).length ∧
      FileDatabase.cleanup_expired_files
          (FileDatabase.cleanup_expired_files coll now).2 now =
        (0, (FileDatabase.cleanup_expired_files coll now).2)) := by
  have hfall : ∀ (now : Int) (p : Nat × FileRecord),
      (decide (now - p.2.created_at > 86400)) =
      (decide (fallbackExpiresAt p.2 < now)) := by
    intro now p
    rw [decide_eq_decide]
    unfold fallbackExpiresAt
    omega
  constructor
  · intro now s
    refine ⟨fun e => ?_, ?_, ?_⟩
    · unfold cleanup_sweep
      dsimp only
      rw [List.mem_filter]
      simp [hfall now]
    · unfold cleanup_sweep
      dsimp only
      congr 1
      exact List.filter_congr fun p _ => hfall now p
    · unfold cleanup_sweep
      dsimp only
      have hi := sweep_filter_idem s
        (fun p : Nat × FileRecord => decide (now - p.2.created_at > 86400))
      rw [hi.1, hi.2]
      rfl
  · intro now coll
    refine ⟨fun d => ?_, rfl, ?_⟩
    · unfold FileDatabase.cleanup_expired_files
      dsimp only
      rw [List.mem_filter]
      simp
    · unfold FileDatabase.cleanup_expired_files
      dsimp only
      have hi := sweep_filter_idem coll
        (fun d : DbRecord => decide (d.expires_at < now))
      rw [hi.1, hi.2]
      rfl

/-- C10: the `/info` lookup path reads only the in-process fallback
map, and `store_file_info_pro` places the record there only when the
database write raises; so when the database write succeeds the map is
unchanged, and a subsequent lookup of that record's id (with any hash)
through this path returns `None` — the durably stored record is
invisible to the lookup interface. -/
theorem C10_durable_invisible (dbRaises : Bool) (rec : FileRecord)
    (s : Storage) (h : String)
    (hdb : dbRaises = false)
    (hfresh : lookupStorage s rec.unique_id = none) :
    store_file_info_pro dbRaises rec s = s ∧
    get_file_from_storage (store_file_info_pro dbRaises rec s)
      rec.unique_id h = none := by
  subst hdb
  refine ⟨by simp [store_file_info_pro], ?_⟩
  simp [store_file_info_pro, get_file_from_storage, hfresh]

/-- Witness for C10: the database write succeeds for a fresh id 7; the
fallback map stays empty and the lookup misses. -/
theorem C10_durable_invisible_witness :
    store_file_info_pro false
      { unique_id := 7, telegram_file_id := "t", file_name := "f",
        file_size := 10, file_type := "Audio", hash := "abc",
        created_at := 0 } [] = [] ∧
    get_file_from_storage
      (store_file_info_pro false
        { unique_id := 7, telegram_file_id := "t", file_name := "f",
          file_size := 10, file_type := "Audio", hash := "abc",
          created_at := 0 } []) 7 "abc" = none :=
  C10_durable_invisible false
    { unique_id := 7, telegram_file_id := "t", file_name := "f",
      file_size := 10, file_type := "Audio", hash := "abc",
      created_at := 0 } [] "abc" rfl rfl

end FileToLink
